import Mathlib

/-!
Shallow embedding of the uvc-fingerprint-server (checador) core:
data model (src/checador/database.py), time-clock policy
(src/checador/timeclock.py), the 1:N identification loop
(src/checador/fingerprint.py), and the kiosk / companion-device punch
endpoints (src/checador/api/punch.py, src/checador/api/device.py).
Timestamps are modelled as integer seconds; the camera, the NBIS
subprocesses and the network are oracles passed in as parameters.
-/

/-- Punch type: the `punch_type` column holds the string "IN" or "OUT";
only these two values are ever written by the code. -/
inductive PunchType where
  | IN
  | OUT
deriving DecidableEq, Repr

/-- The opposite punch type (used to state the toggle property). -/
def PunchType.opposite : PunchType → PunchType
  | .IN => .OUT
  | .OUT => .IN

/-- Row of the `users` table (database.py, class User). -/
structure User where
  id : Nat
  name : String
  employee_code : String
  active : Bool
  created_at : Int
deriving DecidableEq, Repr

/-- Row of the `templates` table (database.py, class Template). -/
structure Template where
  id : Nat
  user_id : Nat
  template_path : String
  quality : Int
  created_at : Int
deriving DecidableEq, Repr

/-- Row of the `punches` table (database.py, class Punch). -/
structure Punch where
  id : Nat
  user_id : Nat
  timestamp_utc : Int
  timestamp_local : Int
  punch_type : PunchType
  match_score : Nat
  device_id : String
  synced : Bool
  sync_error : Option String
  sync_at : Option Int
deriving DecidableEq, Repr

/-- Row of the `devices` table (database.py, class Device). -/
structure Device where
  id : Nat
  user_id : Nat
  token : String
  name : String
  created_at : Int
  enrolled_user_agent : Option String
deriving DecidableEq, Repr

/-- Flattened configuration: the fields of config.py's TimeclockConfig,
FingerprintConfig.match_threshold, AppConfig.device_id and
DeviceSecurityConfig.user_agent_check_enabled that the punch paths read. -/
structure Cfg where
  antibounce_seconds : Int
  max_punches_per_day : Nat
  punch_cooldown_seconds : Int
  match_threshold : Int
  device_id : String
  user_agent_check_enabled : Bool
deriving DecidableEq, Repr

/-- The defaults from config.py (TimeclockConfig, FingerprintConfig,
AppConfig, DeviceSecurityConfig). -/
def cfg0 : Cfg :=
  { antibounce_seconds := 10
    max_punches_per_day := 6
    punch_cooldown_seconds := 300
    match_threshold := 40
    device_id := "CHECADOR-001"
    user_agent_check_enabled := true }

/-- Whole-system state: the four tables the punch paths touch plus the
process-wide `_challenges` dict of api/device.py (challenge string mapped
to the pair of device token and expiry timestamp). -/
structure SysState where
  users : List User
  templates : List Template
  punches : List Punch
  devices : List Device
  challenges : List (String × String × Int)
deriving DecidableEq, Repr

/-! ## Store operations (database.py) -/

/-- `Database.get_user`: first user row with the given primary key. -/
def get_user (users : List User) (uid : Nat) : Option User :=
  users.find? (fun u => u.id == uid)

/-- Fold of `ORDER BY timestamp_utc DESC LIMIT 1`: keep the punch with the
greatest UTC timestamp (the earlier row on ties, which SQLite leaves
unspecified). -/
def lastPunchAux : List Punch → Option Punch → Option Punch
  | [], acc => acc
  | p :: r, acc =>
    match acc with
    | none => lastPunchAux r (some p)
    | some q => lastPunchAux r (some (if q.timestamp_utc < p.timestamp_utc then p else q))

/-- `Database.get_last_punch`: the user's most recent punch by
`timestamp_utc`, with no filter on `device_id`. -/
def get_last_punch (punches : List Punch) (uid : Nat) : Option Punch :=
  lastPunchAux (punches.filter (fun p => p.user_id == uid)) none

/-- `Database.get_user_punch_count_today`: count of the user's punches with
`timestamp_local >= today_start`, where `today_start` is the kiosk's local
midnight (passed in explicitly here). -/
def get_user_punch_count_today (punches : List Punch) (uid : Nat) (todayStart : Int) : Nat :=
  (punches.filter (fun p => decide (p.user_id = uid ∧ todayStart ≤ p.timestamp_local))).length

/-- Stable descending insertion by `quality` (the `ORDER BY quality DESC`
of `get_all_templates`). -/
def insertByQuality (t : Template) : List Template → List Template
  | [] => [t]
  | h :: r => if t.quality ≤ h.quality then h :: insertByQuality t r else t :: h :: r

/-- `Database.get_all_templates`: templates joined to their user, active
users only, ordered by quality descending. -/
def get_all_templates (st : SysState) : List Template :=
  ((st.templates.filter (fun t =>
      match get_user st.users t.user_id with
      | some u => u.active
      | none => false)).foldr insertByQuality [])

/-- `Database.get_device_by_token`: first device row with the given token
(the `token` column is unique). -/
def get_device_by_token (devices : List Device) (token : String) : Option Device :=
  devices.find? (fun d => d.token == token)

/-- `Database.update_device_user_agent`: store the caller's user agent on
the device with the given token. -/
def update_device_user_agent (devices : List Device) (token : String) (ua : String) :
    List Device :=
  devices.map (fun d => if d.token == token then { d with enrolled_user_agent := some ua } else d)

/-- `Database.register_device`: refuse a duplicate token, otherwise append
a new row (the autoincrement id is modelled as `length + 1`). -/
def register_device (devices : List Device) (uid : Nat) (token name ua : String)
    (now : Int) : Option (Device × List Device) :=
  if devices.any (fun d => d.token == token) then none
  else
    let d : Device :=
      { id := devices.length + 1, user_id := uid, token := token, name := name,
        created_at := now, enrolled_user_agent := some ua }
    some (d, devices ++ [d])

/-- Business fields of a punch row: everything except the three sync-state
columns `synced`, `sync_error`, `sync_at`. -/
def businessView (p : Punch) : Nat × Int × Int × PunchType × Nat × String :=
  (p.user_id, p.timestamp_utc, p.timestamp_local, p.punch_type, p.match_score, p.device_id)

/-- `Database.mark_punches_synced`: on every named row set `synced = true`
and stamp `sync_at` (the per-row `utcnow()` is modelled by one shared
instant). -/
def mark_punches_synced (punches : List Punch) (ids : List Nat) (now : Int) : List Punch :=
  punches.map (fun p =>
    if p.id ∈ ids then { p with synced := true, sync_at := some now } else p)

/-- `Database.mark_punch_sync_error`: store the first 500 characters of the
message in `sync_error` of the named row. -/
def mark_punch_sync_error (punches : List Punch) (pid : Nat) (error : String) : List Punch :=
  punches.map (fun p =>
    if p.id = pid then { p with sync_error := some (error.take 500) } else p)

/-! ## TimeClock (timeclock.py) -/

/-- `TimeClock.determine_punch_type`: IN when the user has no prior punch,
else OUT exactly when the last punch was IN. -/
def determine_punch_type (punches : List Punch) (uid : Nat) : PunchType :=
  match get_last_punch punches uid with
  | none => .IN
  | some lp => if lp.punch_type = .IN then .OUT else .IN

/-- `TimeClock.check_antibounce`: blocked when the time since the last
punch is strictly below `antibounce_seconds`. -/
def check_antibounce (cfg : Cfg) (punches : List Punch) (uid : Nat) (now : Int) : Bool :=
  match get_last_punch punches uid with
  | none => false
  | some lp => decide (now - lp.timestamp_utc < cfg.antibounce_seconds)

/-- `TimeClock.record_punch`: anti-bounce gate, then toggle, then insert a
fresh unsynced row carrying the kiosk `device_id` (the autoincrement id is
modelled as the current row count). -/
def record_punch (cfg : Cfg) (punches : List Punch) (user : User) (matchScore : Nat)
    (nowUtc nowLocal : Int) : (Bool × Option Punch × Option String) × List Punch :=
  if check_antibounce cfg punches user.id nowUtc then
    ((false, none, some ("Please wait before punching again")), punches)
  else
    let pt := determine_punch_type punches user.id
    let p : Punch :=
      { id := punches.length, user_id := user.id, timestamp_utc := nowUtc,
        timestamp_local := nowLocal, punch_type := pt, match_score := matchScore,
        device_id := cfg.device_id, synced := false, sync_error := none, sync_at := none }
    ((true, some p, none), punches ++ [p])

/-! ## Matcher (fingerprint.py) -/

/-- Loop body of `FingerprintMatcher.identify`: running best id (initially
absent) and running best score (initially 0), updated only on a strictly
better score. The probe-vs-entry bozorth3 call is the oracle `score`. -/
def identifyLoop (score : α → Nat) : List (Nat × α) → Option Nat → Nat → Option Nat × Nat
  | [], bid, bs => (bid, bs)
  | (tid, x) :: rest, bid, bs =>
    if score x > bs then identifyLoop score rest (some tid) (score x)
    else identifyLoop score rest bid bs

/-- `FingerprintMatcher.identify`: run the loop over the gallery and return
the best pair when the best score reaches `match_threshold`, else nothing.
The best id inside the returned pair is an `Option`, exactly as in the
source where `best_match_id` may still be `None`. -/
def identify (score : α → Nat) (threshold : Int) (gallery : List (Nat × α)) :
    Option (Option Nat × Nat) :=
  let r := identifyLoop score gallery none 0
  if (r.2 : Int) ≥ threshold then some (r.1, r.2) else none

/-- Specification helper: the maximum per-entry score over a gallery
(0 for the empty gallery). -/
def maxScore (score : α → Nat) (gallery : List (Nat × α)) : Nat :=
  gallery.foldr (fun g acc => max (score g.2) acc) 0

/-- Specification helper: the id of the first gallery entry whose score
equals `m` (gallery order = quality-descending, then insertion order). -/
def firstBest (score : α → Nat) (m : Nat) : List (Nat × α) → Option Nat
  | [] => none
  | (tid, x) :: rest => if score x = m then some tid else firstBest score m rest

/-! ## Companion-device channel (api/device.py) -/

/-- First challenge-store entry for a challenge string (the Python dict
has unique keys). -/
def lookupChallenge : List (String × String × Int) → String → Option (String × Int)
  | [], _ => none
  | (c, tok, e) :: r, ch => if c = ch then some (tok, e) else lookupChallenge r ch

/-- Removal part of `_challenges.pop(challenge)`. -/
def eraseChallenge (l : List (String × String × Int)) (ch : String) :
    List (String × String × Int) :=
  l.filter (fun e => e.1 != ch)

/-- `_cleanup_expired_challenges`: drop every entry whose expiry is in the
past. -/
def cleanupChallenges (l : List (String × String × Int)) (now : Int) :
    List (String × String × Int) :=
  l.filter (fun e => !(decide (e.2.2 < now)))

/-- Outcome of a device-channel request: an `HTTPException` with status and
detail, or the success payload of `punch_with_device`. -/
inductive DeviceResult where
  | err (status : Nat) (detail : String)
  | ok (user_name : String) (punch_type : PunchType) (timestamp : Int)
deriving DecidableEq, Repr

/-- Whether a device-channel result is the success payload. -/
def DeviceResult.isOk : DeviceResult → Bool
  | .ok _ _ _ => true
  | .err _ _ => false

/-- HTTP status of a device-channel result (FastAPI returns 200 on the
success payload). -/
def DeviceResult.statusCode : DeviceResult → Nat
  | .ok _ _ _ => 200
  | .err s _ => s

/-- Punch-type computation of `punch_with_device`: start from IN and flip
to OUT exactly when the last punch exists and was IN. -/
def devicePunchType (lastPunch : Option Punch) : PunchType :=
  match lastPunch with
  | some lp => if lp.punch_type = .IN then .OUT else .IN
  | none => .IN

/-- Python truthiness test `device.enrolled_user_agent and current_ua !=
device.enrolled_user_agent`. -/
def uaMismatch (d : Device) (ua : String) : Bool :=
  match d.enrolled_user_agent with
  | some s => s != "" && ua != s
  | none => false

/-- `device.user.name` through the eagerly loaded relationship (a device
row always has its FK user; the default covers the unreachable case). -/
def deviceUserName (st : SysState) (d : Device) : String :=
  match get_user st.users d.user_id with
  | some u => u.name
  | none => ""

/-- Steps 5 and onward of `punch_with_device`: daily-limit gate, punch-type
toggle, and insertion of the sentinel-scored device punch. -/
def devicePunchFinish (cfg : Cfg) (st : SysState) (device : Device)
    (lastPunch : Option Punch) (now nowLocal todayStart : Int) : DeviceResult × SysState :=
  if cfg.max_punches_per_day ≤ get_user_punch_count_today st.punches device.user_id todayStart then
    let m := cfg.max_punches_per_day
    (.err 429 (s!"Daily punch limit reached ({m})"), st)
  else
    let pt := devicePunchType lastPunch
    let p : Punch :=
      { id := st.punches.length, user_id := device.user_id, timestamp_utc := now,
        timestamp_local := nowLocal, punch_type := pt, match_score := 100,
        device_id := "device_" ++ toString device.id, synced := false,
        sync_error := none, sync_at := none }
    (.ok (deviceUserName st device) pt now, { st with punches := st.punches ++ [p] })

/-- Step 4 of `punch_with_device`: the long cooldown against the user's
most recent punch on any channel, then the finishing steps. -/
def devicePunchCore (cfg : Cfg) (st : SysState) (device : Device)
    (now nowLocal todayStart : Int) : DeviceResult × SysState :=
  match get_last_punch st.punches device.user_id with
  | some lp =>
    if now - lp.timestamp_utc < cfg.punch_cooldown_seconds then
      let remaining := cfg.punch_cooldown_seconds - (now - lp.timestamp_utc)
      (.err 429 (s!"Please wait {remaining} seconds before punching again"), st)
    else devicePunchFinish cfg st device (some lp) now nowLocal todayStart
  | none => devicePunchFinish cfg st device none now nowLocal todayStart

/-- `POST /api/devices/punch` (`punch_with_device`): sweep expired
challenges, pop the presented challenge, verify its bound token and
expiry, load the device, soft-refresh the user agent, then run the
cooldown / daily-limit / toggle / insert sequence. -/
def punch_with_device (cfg : Cfg) (st : SysState) (token challenge ua : String)
    (now nowLocal todayStart : Int) : DeviceResult × SysState :=
  let chs := cleanupChallenges st.challenges now
  match lookupChallenge chs challenge with
  | none => (.err 403 ("Invalid or expired challenge"), { st with challenges := chs })
  | some (storedToken, expiry) =>
    let st1 := { st with challenges := eraseChallenge chs challenge }
    if storedToken != token then (.err 403 ("Challenge token mismatch"), st1)
    else if now > expiry then (.err 403 ("Challenge expired"), st1)
    else
      match get_device_by_token st1.devices token with
      | none => (.err 404 ("Device not enrolled"), st1)
      | some device =>
        let st2 :=
          if cfg.user_agent_check_enabled && uaMismatch device ua then
            { st1 with devices := update_device_user_agent st1.devices token ua }
          else st1
        devicePunchCore cfg st2 device now nowLocal todayStart

/-- Outcome of `POST /api/devices/enroll`. -/
inductive EnrollResult where
  | err (status : Nat) (detail : String)
  | ok (device_id : Nat)
deriving DecidableEq, Repr

/-- `POST /api/devices/enroll` (`enroll_device`): binds the caller's user
agent and registers the device. The `admin_token` field of the request is
accepted but never checked against the admin session store. -/
def enroll_device (st : SysState) (userId : Nat) (token name adminToken ua : String)
    (now : Int) : EnrollResult × SysState :=
  match register_device st.devices userId token name ua now with
  | none => (.err 400 ("Device already registered or error"), st)
  | some (d, devices') => (.ok d.id, { st with devices := devices' })

/-! ## Admin sessions (api/admin.py) -/

/-- First admin-session entry for a token (`active_tokens` dict). -/
def lookupAdminToken : List (String × Int) → String → Option Int
  | [], _ => none
  | (t, e) :: r, tok => if t = tok then some e else lookupAdminToken r tok

/-- `verify_token` of api/admin.py: a token is valid iff it is present and
unexpired (the lazy deletion of the expired entry is a no-op on the
returned boolean). -/
def verify_token (activeTokens : List (String × Int)) (token : String) (now : Int) : Bool :=
  match lookupAdminToken activeTokens token with
  | none => false
  | some expiry => decide (now ≤ expiry)

/-! ## Kiosk punch endpoint (api/punch.py) -/

/-- Response of `POST /api/punch`: always HTTP 200, either a structured
failure message or the success payload. -/
inductive KioskOutcome where
  | failure (message : String)
  | success (user_name : String) (punch_type : PunchType) (match_score : Nat)
deriving DecidableEq, Repr

/-- `POST /api/punch` (`punch` in api/punch.py). Camera capture and NBIS
extraction are oracles (`captureOk`/`captureErr`, `extractOk`); the
bozorth3 score of the fresh probe against a gallery path is the oracle
`score`. An exhausted `next(...)` (possible when `identify` names no
template) raises and is caught by the outer handler as "Internal error",
as is a missing punch record on a successful `record_punch`. -/
def punch (cfg : Cfg) (st : SysState) (captureOk : Bool) (captureErr : Option String)
    (extractOk : Bool) (score : String → Nat) (nowUtc nowLocal : Int) :
    KioskOutcome × SysState :=
  if !captureOk then (.failure (captureErr.getD ("Failed to capture fingerprint")), st)
  else if !extractOk then (.failure ("Failed to extract fingerprint features"), st)
  else
    let templates := get_all_templates st
    if templates.isEmpty then (.failure ("No enrolled users"), st)
    else
      let gallery := templates.map (fun t => (t.id, t.template_path))
      match identify score cfg.match_threshold gallery with
      | none => (.failure ("Fingerprint not recognized"), st)
      | some (mid, mscore) =>
        match templates.find? (fun t => some t.id == mid) with
        | none => (.failure ("Internal error"), st)
        | some tpl =>
          match get_user st.users tpl.user_id with
          | none => (.failure ("User not found or inactive"), st)
          | some user =>
            if !user.active then (.failure ("User not found or inactive"), st)
            else
              let r := record_punch cfg st.punches user mscore nowUtc nowLocal
              match r.1 with
              | (true, some p, _) =>
                (.success user.name p.punch_type mscore, { st with punches := r.2 })
              | (true, none, _) => (.failure ("Internal error"), st)
              | (false, _, e) => (.failure (e.getD ("Failed to record punch")), st)

/-! ## Helper lemmas about the store -/

lemma lastPunchAux_acc_le :
    ∀ (l : List Punch) (q : Punch),
      ∃ lp, lastPunchAux l (some q) = some lp ∧ q.timestamp_utc ≤ lp.timestamp_utc := by
  intro l
  induction l with
  | nil => intro q; exact ⟨q, rfl, le_refl _⟩
  | cons h r ih =>
    intro q
    obtain ⟨lp, h1, h2⟩ := ih (if q.timestamp_utc < h.timestamp_utc then h else q)
    refine ⟨lp, h1, ?_⟩
    by_cases hc : q.timestamp_utc < h.timestamp_utc
    · simp only [hc, if_pos] at h2; omega
    · simp only [hc, if_neg, not_false_iff] at h2; omega

lemma lastPunchAux_ge :
    ∀ (l : List Punch) (acc : Option Punch) (p : Punch), p ∈ l →
      ∃ lp, lastPunchAux l acc = some lp ∧ p.timestamp_utc ≤ lp.timestamp_utc := by
  intro l
  induction l with
  | nil => intro acc p hp; cases hp
  | cons h r ih =>
    intro acc p hp
    rcases List.mem_cons.mp hp with rfl | hmem
    · cases acc with
      | none =>
        obtain ⟨lp, h1, h2⟩ := lastPunchAux_acc_le r p
        exact ⟨lp, h1, h2⟩
      | some q =>
        obtain ⟨lp, h1, h2⟩ :=
          lastPunchAux_acc_le r (if q.timestamp_utc < p.timestamp_utc then p else q)
        refine ⟨lp, h1, ?_⟩
        by_cases hc : q.timestamp_utc < p.timestamp_utc
        · simp only [hc, if_pos] at h2; omega
        · simp only [hc, if_neg, not_false_iff] at h2; omega
    · cases acc with
      | none => exact ih (some h) p hmem
      | some q => exact ih _ p hmem

lemma lastPunchAux_prop (P : Punch → Prop) :
    ∀ (l : List Punch) (acc : Option Punch), (∀ x ∈ l, P x) →
      (∀ q, acc = some q → P q) →
      ∀ lp, lastPunchAux l acc = some lp → P lp := by
  intro l
  induction l with
  | nil => intro acc _ hacc lp h; exact hacc lp h
  | cons h r ih =>
    intro acc hall hacc lp hres
    cases acc with
    | none =>
      refine ih (some h) (fun x hx => hall x (List.mem_cons_of_mem _ hx)) ?_ lp hres
      intro q hq; cases hq; exact hall h (List.mem_cons_self _ _)
    | some q =>
      refine ih _ (fun x hx => hall x (List.mem_cons_of_mem _ hx)) ?_ lp hres
      intro q' hq'
      cases hq'
      by_cases hc : q.timestamp_utc < h.timestamp_utc
      · simp only [hc, if_pos]; exact hall h (List.mem_cons_self _ _)
      · simp only [hc, if_neg, not_false_iff]; exact hacc q rfl

/-- The punch returned by `get_last_punch` belongs to the user and its UTC
timestamp dominates that of every punch of the user in the store. -/
lemma get_last_punch_ge (ps : List Punch) (uid : Nat) (p : Punch)
    (hp : p ∈ ps) (hu : p.user_id = uid) :
    ∃ lp, get_last_punch ps uid = some lp ∧ lp.user_id = uid ∧
      p.timestamp_utc ≤ lp.timestamp_utc := by
  have hpf : p ∈ ps.filter (fun x => x.user_id == uid) := by
    refine List.mem_filter.mpr ⟨hp, ?_⟩
    simp [hu]
  obtain ⟨lp, h1, h2⟩ := lastPunchAux_ge _ none p hpf
  refine ⟨lp, h1, ?_, h2⟩
  have := lastPunchAux_prop (fun x => x.user_id = uid)
    (ps.filter (fun x => x.user_id == uid)) none ?_ ?_ lp h1
  · exact this
  · intro x hx
    have := (List.mem_filter.mp hx).2
    simpa using this
  · intro q hq; cases hq

/-! ## Helper lemmas about the challenge store -/

lemma lookupChallenge_filter_none :
    ∀ (l : List (String × String × Int)) (f : String × String × Int → Bool) (ch : String),
      lookupChallenge l ch = none → lookupChallenge (l.filter f) ch = none := by
  intro l
  induction l with
  | nil => intro f ch _; rfl
  | cons e r ih =>
    intro f ch h
    obtain ⟨c, tok, ex⟩ := e
    by_cases hc : c = ch
    · subst hc
      simp [lookupChallenge] at h
    · simp only [lookupChallenge, if_neg hc] at h
      by_cases hf : f (c, tok, ex)
      · simp only [List.filter_cons, hf, if_pos, lookupChallenge, if_neg hc]
        exact ih f ch h
      · simp only [List.filter_cons, hf]
        simpa using ih f ch h

lemma lookupChallenge_filter_keep :
    ∀ (l : List (String × String × Int)) (f : String × String × Int → Bool) (ch : String)
      (v : String × Int),
      lookupChallenge l ch = some v → f (ch, v.1, v.2) = true →
      lookupChallenge (l.filter f) ch = some v := by
  intro l
  induction l with
  | nil => intro f ch v h; cases h
  | cons e r ih =>
    intro f ch v h hf
    obtain ⟨c, tok, ex⟩ := e
    by_cases hc : c = ch
    · subst hc
      simp only [lookupChallenge, if_pos rfl] at h
      cases h
      simp only [List.filter_cons, hf, if_pos, lookupChallenge]
    · simp only [lookupChallenge, if_neg hc] at h
      by_cases hfe : f (c, tok, ex)
      · simp only [List.filter_cons, hfe, if_pos, lookupChallenge, if_neg hc]
        exact ih f ch v h hf
      · simp only [List.filter_cons, hfe]
        simpa using ih f ch v h hf

lemma lookupChallenge_erase_self :
    ∀ (l : List (String × String × Int)) (ch : String),
      lookupChallenge (eraseChallenge l ch) ch = none := by
  intro l
  induction l with
  | nil => intro ch; rfl
  | cons e r ih =>
    intro ch
    obtain ⟨c, tok, ex⟩ := e
    by_cases hc : c = ch
    · subst hc
      simp only [eraseChallenge, List.filter_cons]
      simpa [eraseChallenge] using ih c
    · simp only [eraseChallenge, List.filter_cons]
      have : ((c, tok, ex).1 != ch) = true := by simpa using hc
      simp only [this, if_pos, lookupChallenge, if_neg hc]
      simpa [eraseChallenge] using ih ch

lemma devicePunchFinish_challenges (cfg : Cfg) (st : SysState) (device : Device)
    (lastPunch : Option Punch) (now nowLocal todayStart : Int) :
    (devicePunchFinish cfg st device lastPunch now nowLocal todayStart).2.challenges
      = st.challenges := by
  unfold devicePunchFinish
  split <;> rfl

lemma devicePunchCore_challenges (cfg : Cfg) (st : SysState) (device : Device)
    (now nowLocal todayStart : Int) :
    (devicePunchCore cfg st device now nowLocal todayStart).2.challenges
      = st.challenges := by
  unfold devicePunchCore
  split
  · split
    · rfl
    · rw [devicePunchFinish_challenges]
  · rw [devicePunchFinish_challenges]

/-- After any run of `punch_with_device`, the presented challenge is gone
from the challenge store, whatever the outcome. -/
lemma punch_with_device_challenge_gone (cfg : Cfg) (st : SysState)
    (token challenge ua : String) (now nowLocal todayStart : Int) :
    lookupChallenge
      (punch_with_device cfg st token challenge ua now nowLocal todayStart).2.challenges
      challenge = none := by
  unfold punch_with_device
  cases h : lookupChallenge (cleanupChallenges st.challenges now) challenge with
  | none => simp only [h]
  | some v =>
    obtain ⟨tok, exp⟩ := v
    simp only [h]
    split
    · exact lookupChallenge_erase_self _ _
    · split
      · exact lookupChallenge_erase_self _ _
      · split
        · exact lookupChallenge_erase_self _ _
        · rw [devicePunchCore_challenges]
          split <;> exact lookupChallenge_erase_self _ _

/-- A punch request whose challenge is absent from the store is rejected
as invalid or expired, with only the expired-challenge sweep applied. -/
lemma punch_with_device_absent (cfg : Cfg) (st : SysState)
    (token challenge ua : String) (now nowLocal todayStart : Int)
    (h : lookupChallenge st.challenges challenge = none) :
    punch_with_device cfg st token challenge ua now nowLocal todayStart
      = (.err 403 ("Invalid or expired challenge"),
         { st with challenges := cleanupChallenges st.challenges now }) := by
  have h2 : lookupChallenge (cleanupChallenges st.challenges now) challenge = none := by
    unfold cleanupChallenges
    exact lookupChallenge_filter_none _ _ _ h
  simp only [punch_with_device, h2]

/-- C5: a challenge presented to `POST /api/devices/punch` is removed from
the in-memory challenge store during that request, accepted or rejected,
and a second presentation of the same challenge (with any token, any user
agent, at any time) is rejected as invalid or expired. -/
theorem challenge_single_use (cfg : Cfg) (st : SysState) (token challenge ua : String)
    (now nowLocal todayStart : Int) (token2 ua2 : String)
    (now2 nowLocal2 todayStart2 : Int) :
    lookupChallenge
      (punch_with_device cfg st token challenge ua now nowLocal todayStart).2.challenges
      challenge = none ∧
    (punch_with_device cfg
        (punch_with_device cfg st token challenge ua now nowLocal todayStart).2
        token2 challenge ua2 now2 nowLocal2 todayStart2).1
      = .err 403 ("Invalid or expired challenge") := by
  refine ⟨punch_with_device_challenge_gone cfg st token challenge ua now nowLocal todayStart, ?_⟩
  rw [punch_with_device_absent cfg _ token2 challenge ua2 now2 nowLocal2 todayStart2
    (punch_with_device_challenge_gone cfg st token challenge ua now nowLocal todayStart)]

/-- Sample user for concrete evaluations. -/
def wUser : User :=
  { id := 1, name := "Ana", employee_code := "E001", active := true, created_at := 0 }

/-- Sample IN punch of `wUser` recorded by the kiosk at UTC second 100. -/
def wPunch : Punch :=
  { id := 0, user_id := 1, timestamp_utc := 100, timestamp_local := 100,
    punch_type := .IN, match_score := 55, device_id := "CHECADOR-001",
    synced := false, sync_error := none, sync_at := none }

/-- C6: when the user has a punch strictly less than `antibounce_seconds`
before the current UTC time (in particular when their most recent punch
is), `TimeClock.record_punch` returns the blocked triple
`(false, none, "Please wait before punching again")` and inserts nothing,
leaving the punch store unchanged. -/
theorem antibounce_blocks (cfg : Cfg) (ps : List Punch) (u : User) (score : Nat)
    (nowUtc nowLocal : Int) (p : Punch)
    (hp : p ∈ ps) (hu : p.user_id = u.id)
    (h1 : 0 ≤ nowUtc - p.timestamp_utc)
    (h2 : nowUtc - p.timestamp_utc < cfg.antibounce_seconds) :
    record_punch cfg ps u score nowUtc nowLocal
      = ((false, none, some ("Please wait before punching again")), ps) := by
  obtain ⟨lp, hlp, _, hle⟩ := get_last_punch_ge ps u.id p hp hu
  have hb : check_antibounce cfg ps u.id nowUtc = true := by
    unfold check_antibounce
    rw [hlp]
    simp only [decide_eq_true_eq]
    omega
  unfold record_punch
  rw [hb]
  simp

/-- Witness for C6 at a concrete store: a second punch 5 seconds after the
first is blocked under the default 10-second anti-bounce window. -/
theorem antibounce_blocks_witness :
    record_punch cfg0 [wPunch] wUser 60 105 105
      = ((false, none, some ("Please wait before punching again")), [wPunch]) :=
  antibounce_blocks cfg0 [wPunch] wUser 60 105 105 wPunch (by simp) rfl
    (by decide) (by decide)

/-- C7: `determine_punch_type` yields IN for a user with no prior punch
and the opposite of the last punch's type otherwise, and the
device-channel punch-type computation of `punch_with_device` agrees with
it on every store. -/
theorem punch_type_toggle (ps : List Punch) (uid : Nat) :
    (get_last_punch ps uid = none → determine_punch_type ps uid = .IN) ∧
    (∀ lp, get_last_punch ps uid = some lp →
      determine_punch_type ps uid = lp.punch_type.opposite) ∧
    devicePunchType (get_last_punch ps uid) = determine_punch_type ps uid := by
  refine ⟨?_, ?_, ?_⟩
  · intro h; unfold determine_punch_type; rw [h]
  · intro lp h; unfold determine_punch_type; rw [h]
    cases hpt : lp.punch_type <;> simp [hpt, PunchType.opposite]
  · unfold devicePunchType determine_punch_type
    cases get_last_punch ps uid with
    | none => rfl
    | some lp => rfl

/-- Witness for C7: after an IN punch the next type is its opposite, and
the device-channel computation agrees. -/
theorem punch_type_toggle_witness :
    determine_punch_type [wPunch] 1 = PunchType.opposite wPunch.punch_type ∧
    devicePunchType (get_last_punch [wPunch] 1) = determine_punch_type [wPunch] 1 :=
  ⟨(punch_type_toggle [wPunch] 1).2.1 wPunch rfl, (punch_type_toggle [wPunch] 1).2.2⟩

/-- A punch request with a live challenge bound to the caller's token and
an enrolled device runs the cooldown / daily-limit / record sequence on a
state whose punch and user tables are untouched by the earlier steps. -/
lemma punch_with_device_valid (cfg : Cfg) (st : SysState) (token challenge ua : String)
    (now nowLocal todayStart : Int) (exp : Int) (d : Device)
    (hch : lookupChallenge st.challenges challenge = some (token, exp))
    (hexp : now ≤ exp)
    (hd : get_device_by_token st.devices token = some d) :
    ∃ st2 : SysState, st2.punches = st.punches ∧ st2.users = st.users ∧
      punch_with_device cfg st token challenge ua now nowLocal todayStart
        = devicePunchCore cfg st2 d now nowLocal todayStart := by
  have hkeep : lookupChallenge (cleanupChallenges st.challenges now) challenge
      = some (token, exp) := by
    unfold cleanupChallenges
    refine lookupChallenge_filter_keep _ _ _ _ hch ?_
    simp only [Bool.not_eq_true', decide_eq_false_iff_not]
    omega
  have hlt : ¬ (exp < now) := by omega
  simp only [punch_with_device, hkeep, bne_self_eq_false, Bool.false_eq_true, if_false,
    if_neg hlt, hd]
  refine ⟨_, ?_, ?_, rfl⟩ <;> (split <;> rfl)

/-- When the user already has a punch (on any channel) within the cooldown
window, the cooldown/limit/record sequence rejects with 429 and leaves the
state untouched. -/
lemma devicePunchCore_cooldown (cfg : Cfg) (st : SysState) (device : Device)
    (now nowLocal todayStart : Int) (p : Punch)
    (hp : p ∈ st.punches) (hu : p.user_id = device.user_id)
    (hw : now - p.timestamp_utc < cfg.punch_cooldown_seconds) :
    (devicePunchCore cfg st device now nowLocal todayStart).1.statusCode = 429 ∧
    (devicePunchCore cfg st device now nowLocal todayStart).2 = st := by
  obtain ⟨lp, hlp, _, hle⟩ := get_last_punch_ge st.punches device.user_id p hp hu
  unfold devicePunchCore
  rw [hlp]
  dsimp only
  rw [if_pos (by omega : now - lp.timestamp_utc < cfg.punch_cooldown_seconds)]
  exact ⟨rfl, rfl⟩

/-- C9: the device-channel cooldown is measured against the user's most
recent punch on any channel (`get_last_punch` has no device filter): a
punch recorded less than `punch_cooldown_seconds` before a device punch
attempt — in particular a kiosk punch — makes the attempt fail with HTTP
429 and record nothing, assuming the attempt carries a live challenge
bound to its token and an enrolled device. -/
theorem cross_channel_cooldown (cfg : Cfg) (st : SysState) (token challenge ua : String)
    (now nowLocal todayStart : Int) (exp : Int) (d : Device) (p : Punch)
    (hch : lookupChallenge st.challenges challenge = some (token, exp))
    (hexp : now ≤ exp)
    (hd : get_device_by_token st.devices token = some d)
    (hp : p ∈ st.punches) (hu : p.user_id = d.user_id)
    (h0 : 0 ≤ now - p.timestamp_utc)
    (hw : now - p.timestamp_utc < cfg.punch_cooldown_seconds) :
    (punch_with_device cfg st token challenge ua now nowLocal todayStart).1.statusCode = 429 ∧
    (punch_with_device cfg st token challenge ua now nowLocal todayStart).2.punches
      = st.punches := by
  obtain ⟨st2, hps, _, heq⟩ :=
    punch_with_device_valid cfg st token challenge ua now nowLocal todayStart exp d
      hch hexp hd
  rw [heq]
  obtain ⟨h1, h2⟩ :=
    devicePunchCore_cooldown cfg st2 d now nowLocal todayStart p (hps ▸ hp) hu hw
  exact ⟨h1, by rw [h2, hps]⟩

/-- Sample enrolled device of `wUser`. -/
def wDevice : Device :=
  { id := 1, user_id := 1, token := "tokX", name := "Phone", created_at := 0,
    enrolled_user_agent := none }

/-- Sample system state: one active user with one kiosk punch, one
enrolled device, one live challenge bound to the device token. -/
def wState : SysState :=
  { users := [wUser], templates := [], punches := [wPunch], devices := [wDevice],
    challenges := [("chX", "tokX", 1000)] }

/-- Witness for C9: the kiosk punch at UTC 100 makes the device punch
attempt at UTC 150 fail with 429 under the default 300-second cooldown,
leaving the punch store unchanged. -/
theorem cross_channel_cooldown_witness :
    (punch_with_device cfg0 wState "tokX" "chX" "ua" 150 150 0).1.statusCode = 429 ∧
    (punch_with_device cfg0 wState "tokX" "chX" "ua" 150 150 0).2.punches
      = wState.punches :=
  cross_channel_cooldown cfg0 wState "tokX" "chX" "ua" 150 150 0 1000 wDevice wPunch
    (by decide) (by decide) (by decide) (by simp [wState]) (by decide) (by decide) (by decide)

/-! ## Daily-cap lemmas -/

lemma count_today_append (ps : List Punch) (p : Punch) (uid : Nat) (ts : Int) :
    get_user_punch_count_today (ps ++ [p]) uid ts
      = get_user_punch_count_today ps uid ts
        + (if p.user_id = uid ∧ ts ≤ p.timestamp_local then 1 else 0) := by
  unfold get_user_punch_count_today
  rw [List.filter_append, List.length_append]
  congr 1
  by_cases h : p.user_id = uid ∧ ts ≤ p.timestamp_local
  · simp [h]
  · simp [h]

lemma devicePunchFinish_cap (cfg : Cfg) (st : SysState) (device : Device)
    (lastPunch : Option Punch) (now nowLocal todayStart : Int)
    (hok : (devicePunchFinish cfg st device lastPunch now nowLocal todayStart).1.isOk
      = true) :
    get_user_punch_count_today st.punches device.user_id todayStart
      < cfg.max_punches_per_day ∧
    get_user_punch_count_today
        (devicePunchFinish cfg st device lastPunch now nowLocal todayStart).2.punches
        device.user_id todayStart
      ≤ cfg.max_punches_per_day := by
  unfold devicePunchFinish at hok ⊢
  split at hok
  · exact absurd hok (by simp [DeviceResult.isOk])
  · rename_i hlt
    refine ⟨by omega, ?_⟩
    rw [if_neg hlt]
    dsimp only
    rw [count_today_append]
    split <;> omega

lemma devicePunchCore_cap (cfg : Cfg) (st : SysState) (device : Device)
    (now nowLocal todayStart : Int)
    (hok : (devicePunchCore cfg st device now nowLocal todayStart).1.isOk = true) :
    get_user_punch_count_today st.punches device.user_id todayStart
      < cfg.max_punches_per_day ∧
    get_user_punch_count_today
        (devicePunchCore cfg st device now nowLocal todayStart).2.punches
        device.user_id todayStart
      ≤ cfg.max_punches_per_day := by
  unfold devicePunchCore at hok ⊢
  split at hok
  · rename_i lastPunch lp hlp
    split at hok
    · exact absurd hok (by simp [DeviceResult.isOk])
    · rename_i hcool
      rw [if_neg hcool]
      exact devicePunchFinish_cap cfg st device (some lp) now nowLocal todayStart hok
  · exact devicePunchFinish_cap cfg st device none now nowLocal todayStart hok

/-- C1 (amended): the daily cap is enforced on the companion-device
channel. An accepted `POST /api/devices/punch` for device `d` implies the
owner's punch count since local midnight was strictly below
`max_punches_per_day` before the call and is at most `max_punches_per_day`
after it. (The kiosk channel enforces no daily cap; see the
counterexample.) -/
theorem device_daily_cap (cfg : Cfg) (st : SysState) (token challenge ua : String)
    (now nowLocal todayStart : Int) (d : Device)
    (hd : get_device_by_token st.devices token = some d)
    (hok : (punch_with_device cfg st token challenge ua now nowLocal todayStart).1.isOk
      = true) :
    get_user_punch_count_today st.punches d.user_id todayStart
      < cfg.max_punches_per_day ∧
    get_user_punch_count_today
      (punch_with_device cfg st token challenge ua now nowLocal todayStart).2.punches
      d.user_id todayStart ≤ cfg.max_punches_per_day := by
  revert hok
  simp only [punch_with_device]
  split
  · intro hok; exact absurd hok (by simp [DeviceResult.isOk])
  · split
    · intro hok; exact absurd hok (by simp [DeviceResult.isOk])
    · split
      · intro hok; exact absurd hok (by simp [DeviceResult.isOk])
      · split
        · intro hok; exact absurd hok (by simp [DeviceResult.isOk])
        · rename_i device hdev
          rw [hd] at hdev
          cases hdev
          split
          · intro hok
            simpa using devicePunchCore_cap cfg _ d now nowLocal todayStart hok
          · intro hok
            simpa using devicePunchCore_cap cfg _ d now nowLocal todayStart hok

/-- Witness for C1 (amended): with one punch already today, a device punch
at UTC 1000 is accepted and the daily count stays within the default cap
of 6. -/
theorem device_daily_cap_witness :
    get_user_punch_count_today wState.punches wDevice.user_id 0
      < cfg0.max_punches_per_day ∧
    get_user_punch_count_today
      (punch_with_device cfg0 wState "tokX" "chX" "ua" 1000 1000 0).2.punches
      wDevice.user_id 0 ≤ cfg0.max_punches_per_day :=
  device_daily_cap cfg0 wState "tokX" "chX" "ua" 1000 1000 0 wDevice
    (by decide) (by decide)

/-- Repeatedly run `TimeClock.record_punch` for `u` at the given UTC/local
instants (match score 55), keeping the punch store and whether every
attempt was accepted. -/
def run_kiosk (cfg : Cfg) (u : User) : List Int → List Punch → List Punch × Bool
  | [], ps => (ps, true)
  | t :: ts, ps =>
    let r := record_punch cfg ps u 55 t t
    let rest := run_kiosk cfg u ts r.2
    (rest.1, r.1.1 && rest.2)

/-- C1 counterexample: under the default configuration (cap 6, anti-bounce
10 s) seven kiosk punches spaced exactly 10 s apart are all accepted by
`TimeClock.record_punch`, leaving the user with 7 punches inside one local
calendar day — the kiosk channel never consults the daily cap. -/
theorem daily_cap_counterexample :
    (run_kiosk cfg0 wUser [0, 10, 20, 30, 40, 50, 60] []).2 = true ∧
    ((run_kiosk cfg0 wUser [0, 10, 20, 30, 40, 50, 60] []).1.filter
      (fun p => decide (p.user_id = 1 ∧ 0 ≤ p.timestamp_local ∧
        p.timestamp_local < 86400))).length = 7 ∧
    cfg0.max_punches_per_day = 6 := by decide

/-- Deactivated user with an enrolled companion device and a live
challenge. -/
def wInactiveUser : User :=
  { id := 2, name := "Bo", employee_code := "E002", active := false, created_at := 0 }

/-- Companion device of the deactivated user. -/
def wInactiveDevice : Device :=
  { id := 2, user_id := 2, token := "tokY", name := "PhoneY", created_at := 0,
    enrolled_user_agent := none }

/-- State for the C2 counterexample: only an inactive user, no punches. -/
def wStateInactive : SysState :=
  { users := [wInactiveUser], templates := [], punches := [],
    devices := [wInactiveDevice], challenges := [("chY", "tokY", 1000)] }

/-- C2 counterexample: `punch_with_device` never reads the `active` flag,
so the enrolled device of a deactivated user punches successfully and a
new punch row for that user is recorded. -/
theorem inactive_device_counterexample :
    wInactiveUser.active = false ∧
    (punch_with_device cfg0 wStateInactive "tokY" "chY" "ua" 10 10 0).1.isOk = true ∧
    ((punch_with_device cfg0 wStateInactive "tokY" "chY" "ua" 10 10 0).2.punches.map
      Punch.user_id) = [2] := by decide

lemma record_punch_shape (cfg : Cfg) (ps : List Punch) (u : User) (ms : Nat)
    (t1 t2 : Int) :
    (record_punch cfg ps u ms t1 t2).2 = ps ∨
    ∃ p, (record_punch cfg ps u ms t1 t2).2 = ps ++ [p] ∧ p.user_id = u.id := by
  unfold record_punch
  split
  · exact Or.inl rfl
  · exact Or.inr ⟨_, rfl, rfl⟩

/-- C2 (amended): the kiosk channel enforces the `active` flag — when every
user bearing id `uid` is inactive, `POST /api/punch` never records a punch
for `uid`, the punches stored for `uid` are exactly what they were, and
the whole prior punch ledger survives as a prefix of the new one. (The
device channel does not check `active`; see the counterexample.) -/
theorem inactive_kiosk_frame (cfg : Cfg) (st : SysState) (captureOk : Bool)
    (captureErr : Option String) (extractOk : Bool) (score : String → Nat)
    (nowUtc nowLocal : Int) (uid : Nat)
    (h : ∀ u ∈ st.users, u.id = uid → u.active = false) :
    (punch cfg st captureOk captureErr extractOk score nowUtc nowLocal).2.punches.filter
        (fun p => p.user_id == uid)
      = st.punches.filter (fun p => p.user_id == uid) ∧
    ∃ tail, (punch cfg st captureOk captureErr extractOk score nowUtc nowLocal).2.punches
      = st.punches ++ tail := by
  simp only [punch]
  split
  · exact ⟨rfl, [], by simp⟩
  · split
    · exact ⟨rfl, [], by simp⟩
    · split
      · exact ⟨rfl, [], by simp⟩
      · split
        · exact ⟨rfl, [], by simp⟩
        · split
          · exact ⟨rfl, [], by simp⟩
          · split
            · exact ⟨rfl, [], by simp⟩
            · rename_i user huser
              split
              · exact ⟨rfl, [], by simp⟩
              · rename_i hact
                have humem : user ∈ st.users := List.mem_of_find?_eq_some huser
                have hne : user.id ≠ uid := by
                  intro he
                  have hfalse := h user humem he
                  rw [hfalse] at hact
                  simp at hact
                split
                · rename_i p snd hr
                  rcases record_punch_shape cfg st.punches user _ nowUtc nowLocal with
                    hsh | ⟨p2, hps, hup⟩
                  · exact ⟨by rw [hsh], [], by simp [hsh]⟩
                  · refine ⟨?_, [p2], by rw [hps]⟩
                    rw [hps, List.filter_append]
                    have : (p2.user_id == uid) = false := by
                      simp [hup, hne]
                    simp [this]
                · exact ⟨rfl, [], by simp⟩
                · exact ⟨rfl, [], by simp⟩

/-- Witness for C2 (amended): with only the deactivated user enrolled, a
kiosk punch attempt leaves the punch ledger for that user untouched. -/
theorem inactive_kiosk_frame_witness :
    (punch cfg0 wStateInactive true none true (fun _ => 50) 10 10).2.punches.filter
        (fun p => p.user_id == 2)
      = wStateInactive.punches.filter (fun p => p.user_id == 2) ∧
    ∃ tail, (punch cfg0 wStateInactive true none true (fun _ => 50) 10 10).2.punches
      = wStateInactive.punches ++ tail :=
  inactive_kiosk_frame cfg0 wStateInactive true none true (fun _ => 50) 10 10 2
    (by
      intro u hu _
      simp only [wStateInactive, List.mem_singleton] at hu
      subst hu
      rfl)

/-- State for the C3 evaluation: one active user, no devices, no admin
sessions anywhere. -/
def wStateEmpty : SysState :=
  { users := [wUser], templates := [], punches := [], devices := [], challenges := [] }

/-- C3: the device-enrollment endpoint performs no admin authentication.
"bogus" is not a valid admin session token in an empty session store, yet
`POST /api/devices/enroll` with that `admin_token` succeeds and registers
the device. -/
theorem device_enroll_unauthenticated :
    verify_token [] "bogus" 0 = false ∧
    (enroll_device wStateEmpty 1 "devtok" "Phone" "bogus" "Mozilla" 0).1
      = EnrollResult.ok 1 ∧
    ((enroll_device wStateEmpty 1 "devtok" "Phone" "bogus" "Mozilla" 0).2.devices.map
      Device.token) = ["devtok"] := by decide

/-! ## Identification lemmas -/

lemma maxScore_cons (score : α → Nat) (g : Nat × α) (r : List (Nat × α)) :
    maxScore score (g :: r) = max (score g.2) (maxScore score r) := rfl

lemma identifyLoop_spec (score : α → Nat) :
    ∀ (l : List (Nat × α)) (bid : Option Nat) (bs : Nat),
      identifyLoop score l bid bs
        = (if bs < maxScore score l then firstBest score (maxScore score l) l else bid,
           max bs (maxScore score l)) := by
  intro l
  induction l with
  | nil => intro bid bs; simp [identifyLoop, maxScore, firstBest]
  | cons g r ih =>
    intro bid bs
    obtain ⟨tid, x⟩ := g
    rw [maxScore_cons]
    simp only [identifyLoop]
    by_cases hgt : score x > bs
    · rw [if_pos hgt, ih]
      by_cases hms : maxScore score r ≤ score x
      · have h1 : ¬ score x < maxScore score r := by omega
        have h2 : bs < max (score x) (maxScore score r) := by omega
        have h4 : max bs (max (score x) (maxScore score r))
            = max (score x) (maxScore score r) := by omega
        have h3 : max (score x) (maxScore score r) = score x := by omega
        rw [if_neg h1, if_pos h2, h4, h3]
        simp [firstBest]
      · push_neg at hms
        have h2 : bs < max (score x) (maxScore score r) := by omega
        have h4 : max bs (max (score x) (maxScore score r))
            = max (score x) (maxScore score r) := by omega
        have h3 : max (score x) (maxScore score r) = maxScore score r := by omega
        have h5 : score x ≠ maxScore score r := by omega
        rw [if_pos hms, if_pos h2, h4, h3]
        simp [firstBest, h5]
    · push_neg at hgt
      rw [if_neg (by omega : ¬ score x > bs), ih]
      by_cases h2 : bs < maxScore score r
      · have h3 : bs < max (score x) (maxScore score r) := by omega
        have h5 : max bs (max (score x) (maxScore score r))
            = max bs (maxScore score r) := by omega
        have h4 : max (score x) (maxScore score r) = maxScore score r := by omega
        have h6 : score x ≠ maxScore score r := by omega
        rw [if_pos h2, if_pos h3, h5, h4]
        simp [firstBest, h6]
      · have h3 : ¬ bs < max (score x) (maxScore score r) := by omega
        have h5 : max bs (max (score x) (maxScore score r))
            = max bs (maxScore score r) := by omega
        rw [if_neg h2, if_neg h3, h5]

/-- C4 (amended): `identify` returns the pair of best id and best score
exactly when the maximum per-entry score reaches `match_threshold`, and
none otherwise; the best id is the first gallery entry attaining the
maximum provided that maximum is positive, and names no template when
every score is 0 (the running best starts at 0 and only strict
improvements are recorded). -/
theorem identify_spec (score : α → Nat) (threshold : Int) (gallery : List (Nat × α)) :
    identify score threshold gallery
      = if (maxScore score gallery : Int) < threshold then none
        else some
          (if 0 < maxScore score gallery then
             firstBest score (maxScore score gallery) gallery
           else none,
           maxScore score gallery) := by
  unfold identify
  rw [identifyLoop_spec]
  dsimp only
  rw [Nat.zero_max]
  by_cases h : (maxScore score gallery : Int) < threshold
  · rw [if_neg (by omega), if_pos h]
  · rw [if_pos (by omega), if_neg h]

/-- C4 counterexample: a one-entry gallery whose only score is 0 under
threshold 0. The maximum (0) reaches the threshold and is attained first
by template 1, yet `identify` returns the pair `(none, 0)`, naming no
template, rather than `(some 1, 0)`. -/
theorem identify_first_entry_counterexample :
    identify (fun _ : String => 0) 0 [(1, "g")] = some (none, 0) ∧
    maxScore (fun _ : String => 0) [(1, "g")] = 0 ∧
    firstBest (fun _ : String => 0) 0 [(1, "g")] = some 1 ∧
    ∀ s : Nat, identify (fun _ : String => 0) 0 [(1, "g")] ≠ some (some 1, s) := by
  refine ⟨rfl, rfl, rfl, ?_⟩
  intro s h
  have h2 : some ((none : Option Nat), (0 : Nat)) = some (some 1, s) := h
  simp at h2

lemma maxScore_zero (score : α → Nat) (l : List (Nat × α))
    (h0 : ∀ g ∈ l, score g.2 = 0) : maxScore score l = 0 := by
  induction l with
  | nil => rfl
  | cons g r ih =>
    rw [maxScore_cons, ih (fun x hx => h0 x (List.mem_cons_of_mem _ hx)),
      h0 g (List.mem_cons_self _ _)]
    rfl

/-- C10: when every gallery score is 0 (the empty gallery included), the
loop's best id stays `none`, so `identify` returns none for a positive
threshold and the template-less pair `(none, 0)` for a threshold at most
0. -/
theorem identify_zero_scores (score : α → Nat) (threshold : Int)
    (gallery : List (Nat × α)) (h0 : ∀ g ∈ gallery, score g.2 = 0) :
    (identifyLoop score gallery none 0).1 = none ∧
    identify score threshold gallery
      = if threshold ≤ 0 then some (none, 0) else none := by
  have hm := maxScore_zero score gallery h0
  constructor
  · rw [identifyLoop_spec, hm]
    simp
  · unfold identify
    rw [identifyLoop_spec, hm]
    dsimp only
    by_cases h : threshold ≤ 0
    · rw [if_pos h]
      rw [if_pos (by simp; omega)]
      simp
    · rw [if_neg h]
      rw [if_neg (by simp; omega)]

/-- Witness for C10 at a one-entry all-zero gallery and the default
threshold 40: no template id is tracked and `identify` returns none. -/
theorem identify_zero_scores_witness :
    (identifyLoop (fun _ : String => 0) [(1, "g")] none 0).1 = none ∧
    identify (fun _ : String => 0) 40 [(1, "g")] = none := by
  have h := identify_zero_scores (fun _ : String => 0) 40 [(1, "g")]
    (by intro g _; rfl)
  refine ⟨h.1, ?_⟩
  rw [h.2]
  rfl

/-! ## Sync-field frame (C8) -/

lemma zip_map_self (f : Punch → Punch) :
    ∀ (ps : List Punch) (pr : Punch × Punch), pr ∈ ps.zip (ps.map f) → pr.2 = f pr.1 := by
  intro ps
  induction ps with
  | nil => intro pr h; cases h
  | cons p r ih =>
    intro pr h
    rw [List.map_cons, List.zip_cons_cons] at h
    rcases List.mem_cons.mp h with rfl | hm
    · rfl
    · exact ih pr hm

/-- C8: the two sync markers touch only the three sync-state columns.
Both leave every business field of every row unchanged;
`mark_punches_synced` rewrites exactly the named rows to
`synced = true` with `sync_at` stamped and leaves the others literally
identical; `mark_punch_sync_error` rewrites exactly the named row's
`sync_error` to the first 500 characters of the message; and the stored
message never exceeds 500 characters. -/
theorem sync_field_frame (ps : List Punch) (ids : List Nat) (now : Int) (pid : Nat)
    (err : String) :
    (mark_punches_synced ps ids now).map businessView = ps.map businessView ∧
    (mark_punch_sync_error ps pid err).map businessView = ps.map businessView ∧
    (∀ pr ∈ ps.zip (mark_punches_synced ps ids now),
      (pr.1.id ∈ ids → pr.2 = { pr.1 with synced := true, sync_at := some now }) ∧
      (pr.1.id ∉ ids → pr.2 = pr.1)) ∧
    (∀ pr ∈ ps.zip (mark_punch_sync_error ps pid err),
      (pr.1.id = pid → pr.2 = { pr.1 with sync_error := some (err.take 500) }) ∧
      (pr.1.id ≠ pid → pr.2 = pr.1)) ∧
    (err.take 500).length ≤ 500 := by
  refine ⟨?_, ?_, ?_, ?_, ?_⟩
  · unfold mark_punches_synced
    rw [List.map_map]
    apply List.map_congr_left
    intro a _
    by_cases h : a.id ∈ ids
    · simp only [Function.comp_apply, if_pos h]; rfl
    · simp only [Function.comp_apply, if_neg h]
  · unfold mark_punch_sync_error
    rw [List.map_map]
    apply List.map_congr_left
    intro a _
    by_cases h : a.id = pid
    · simp only [Function.comp_apply, if_pos h]; rfl
    · simp only [Function.comp_apply, if_neg h]
  · intro pr hpr
    have h2 := zip_map_self _ ps pr hpr
    constructor
    · intro hid; rw [h2]; simp only [if_pos hid]
    · intro hid; rw [h2]; simp only [if_neg hid]
  · intro pr hpr
    have h2 := zip_map_self _ ps pr hpr
    constructor
    · intro hid; rw [h2]; simp only [if_pos hid]
    · intro hid; rw [h2]; simp only [if_neg hid]
  · rw [String.take_eq]
    show (String.mk (err.data.take 500)).length ≤ 500
    rw [String.length]
    exact List.length_take_le _ _

/-- Sample second punch (id 1). -/
def wPunch2 : Punch :=
  { id := 1, user_id := 1, timestamp_utc := 200, timestamp_local := 200,
    punch_type := .OUT, match_score := 60, device_id := "CHECADOR-001",
    synced := false, sync_error := none, sync_at := none }

/-- Witness for C8 on a two-row store: business fields survive marking,
the named row (id 1) comes back with exactly its sync fields rewritten,
and a short message is stored within the 500-character bound. -/
theorem sync_field_frame_witness :
    (mark_punches_synced [wPunch, wPunch2] [1] 500).map businessView
        = [wPunch, wPunch2].map businessView ∧
    (wPunch2, ({ wPunch2 with synced := true, sync_at := some 500 } : Punch)).2
        = { wPunch2 with synced := true, sync_at := some 500 } ∧
    ("boom".take 500).length ≤ 500 :=
  ⟨(sync_field_frame [wPunch, wPunch2] [1] 500 1 "boom").1,
   ((sync_field_frame [wPunch, wPunch2] [1] 500 1 "boom").2.2.1
      (wPunch2, { wPunch2 with synced := true, sync_at := some 500 })
      (by decide)).1 (by decide),
   (sync_field_frame [wPunch, wPunch2] [1] 500 1 "boom").2.2.2.2⟩
